import Mathlib

/-!
Verification of the launch-reconciliation and tool-configuration logic of the
django_app_lti application (source files: django_app_lti/views.py,
django_app_lti/urls.py).

The entity store is embedded as explicit state: a record of lists of the three
entity types described by the data model (Resource, Course, CourseMembership).
The views are embedded from the source as written; in particular the POST
launch pipeline is embedded as written, where hook_process_post calls
self._process_post() with no argument and _process_post reads the unbound
name request, so every POST fails with a NameError before any store access.
External collaborators absent from the provided sources (the models.py
existence check used only to state preconditions, the ims_lti_py ToolConfig
document, django.contrib.auth.logout) are modelled from the specification and
are marked "Modelled from the spec" in their doc comments.
-/

set_option autoImplicit false

namespace LtiApp

/-- A Course record (spec data model): internal identifier, short name, display
name, and the optional consumer-supplied external (canvas) course id.  Modelled
from the spec: the LTICourse model class lives in models.py, which is not among
the provided sources. -/
structure LTICourse where
  id : Nat
  course_name_short : Option String
  course_name : Option String
  canvas_course_id : Option String
deriving Repr, DecidableEq

/-- A Resource record (spec data model): one placement of the tool, identified
by the (consumer_key, resource_link_id) pair, holding a reference to its
Course.  Both key components are required strings.  Modelled from the spec:
the LTIResource model class lives in models.py, which is not among the
provided sources. -/
structure LTIResource where
  consumer_key : String
  resource_link_id : String
  course_id : Nat
deriving Repr, DecidableEq

/-- A CourseMembership record (spec data model): a user's relationship to a
Course together with the role list parsed from the launch.  Modelled from the
spec: the LTICourseUser model class lives in models.py, which is not among the
provided sources. -/
structure LTICourseUser where
  user_id : Nat
  course_id : Nat
  roles : List String
deriving Repr, DecidableEq

/-- The Entity Store: the persistent records of the three entity types, plus
the counter supplying fresh internal Course identifiers. -/
structure Store where
  courses : List LTICourse
  resources : List LTIResource
  courseUsers : List LTICourseUser
  nextCourseId : Nat
deriving Repr, DecidableEq

/-- The POST body fields of an inbound launch request that the launch view
reads, plus the authenticated user identity established upstream. -/
structure LaunchRequest where
  oauth_consumer_key : Option String
  resource_link_id : Option String
  context_id : Option String
  context_label : Option String
  context_title : Option String
  custom_canvas_course_id : Option String
  roles : Option String
  user : Nat
deriving Repr, DecidableEq

/-- Errors of the launch pipeline.  malformedLaunch: the specified failure
for an absent required key field.  noContext: redirect computation was
reached with no resolved context (in the source, dereferencing
self.lti_resource.course when lti_resource is None).  nameError: evaluation
reached a Python name that is bound in no enclosing scope. -/
inductive LaunchError where
  | malformedLaunch
  | noContext
  | nameError (name : String)
deriving Repr, DecidableEq

/-- The Bool test that a stored Resource matches the launch lookup key. -/
def keyMatch (ck rl : Option String) (r : LTIResource) : Bool :=
  decide (ck = some r.consumer_key) && decide (rl = some r.resource_link_id)

/-- Modelled from the spec: LTIResource.hasCourse (models.py) — whether a
Resource with the given (consumer_key, resource_link_id) pair exists. -/
def hasCourse (s : Store) (ck rl : Option String) : Bool :=
  s.resources.any (keyMatch ck rl)

/-- The request-scoped session: a key-value store written by
hook_after_post. -/
abbrev Session := List (String × Nat)

/-- Read a session key (first binding wins). -/
def sessionGet (sess : Session) (k : String) : Option Nat :=
  (sess.find? (fun kv => decide (kv.1 = k))).map Prod.snd

/-- Dictionary-style assignment to a session key: replace the first binding
of the key, or append a new binding. -/
def sessionSet : Session → String → Nat → Session
  | [], k, v => [(k, v)]
  | kv :: rest, k, v =>
      if kv.1 = k then (k, v) :: rest else kv :: sessionSet rest k v

/-- The static LTI_SETUP configuration dictionary consumed by the views
(external collaborator: static configuration). -/
structure LTISetup where
  launch_redirect_url : String
  lti_launch_url : Option String
  tool_title : String
  tool_description : String
  extension_parameters : List (String × List (String × String))

/-- A redirect to a named route parameterized by the resolved course
identifier. -/
structure RedirectTarget where
  route : String
  course_id : Nat
deriving Repr, DecidableEq

/-- hook_after_post (views.py lines 93-99): if the resolved context
(self.lti_resource) is set, write the resolved course identifier into the
session under the fixed key "course_id"; otherwise leave the session
alone. -/
def hook_after_post (st : Option LTIResource) (sess : Session) : Session :=
  match st with
  | some r => sessionSet sess "course_id" r.course_id
  | none => sess

/-- hook_get_redirect (views.py lines 101-106): build a redirect to the
configured LAUNCH_REDIRECT_URL route parameterized by the resolved course
identifier; with no resolved context the attribute dereference of
self.lti_resource.course fails, the NoContext error of the specification. -/
def hook_get_redirect (setup : LTISetup) (st : Option LTIResource) : Except LaunchError RedirectTarget :=
  match st with
  | some r => Except.ok { route := setup.launch_redirect_url, course_id := r.course_id }
  | none => Except.error LaunchError.noContext

/-- Outcome of the POST launch pipeline. -/
inductive LaunchOutcome where
  | redirectTo (target : RedirectTarget)
  | failure (e : LaunchError)
deriving Repr, DecidableEq

/-- The _process_post call as actually written (views.py lines 86-91 and
108-122): hook_process_post invokes self._process_post() passing nothing, and
_process_post is defined with no request parameter while its body reads the
name request, which is bound in no enclosing scope of views.py (not a
parameter, not a module-level name, not an import).  Evaluating the first
entry of the launch dictionary therefore raises NameError before any
parameter is extracted and before any store access. -/
def processPostWritten (s : Store) : Except LaunchError (LTIResource × Store) :=
  Except.error (LaunchError.nameError "request")

/-- The POST pipeline as actually written (views.py lines 65-78 calling the
no-argument _process_post): the NameError raised inside hook_process_post
propagates, so hook_after_post and hook_get_redirect never run and neither
the session nor the store is touched. -/
def postWritten (setup : LTISetup) (req : LaunchRequest) (sess : Session) (s : Store) :
    LaunchOutcome × Session × Store :=
  match processPostWritten s with
  | Except.error e => (LaunchOutcome.failure e, sess, s)
  | Except.ok (r, s1) =>
      let sess1 := hook_after_post (some r) sess
      match hook_get_redirect setup (some r) with
      | Except.ok t => (LaunchOutcome.redirectTo t, sess1, s1)
      | Except.error e => (LaunchOutcome.failure e, sess1, s1)

/-- A plain HTTP response. -/
structure HttpResp where
  status : Nat
  content_type : String
  body : String
deriving Repr, DecidableEq

/-- LTILaunchView.get (views.py lines 60-63): a GET to the launch endpoint
returns the fixed informational message with status 200 and performs no store
access. -/
def launchGet (s : Store) : HttpResp × Store :=
  ({ status := 200, content_type := "text/html", body := "Invalid LTI launch request." }, s)

/-- The request data LTIToolConfigView reads: the host and whether the request
arrived over a secure transport. -/
structure ConfigRequest where
  host : String
  is_secure : Bool
deriving Repr, DecidableEq

/-- The ToolConfig document (external collaborator ims_lti_py.ToolConfig),
modelled as its field contents: title, description, launch_url,
secure_launch_url, and the extension blocks keyed by vendor platform domain,
each carrying a list of name/value parameters. -/
structure ToolConfig where
  title : String
  description : String
  launch_url : String
  secure_launch_url : String
  ext_params : List (String × List (String × String))
deriving Repr, DecidableEq

/-- LTIToolConfigView.get_launch_url (views.py lines 160-169): the host with
the https scheme when the request is secure and the http scheme otherwise,
followed by the reversed path of the configured launch route name
(LTI_SETUP LTI_LAUNCH_URL, defaulting to the route named lti:launch).  URL
reversal is the routing collaborator, passed in as a function. -/
def get_launch_url (reverse : String → String) (setup : LTISetup) (req : ConfigRequest) : String :=
  (if req.is_secure then "https://" ++ req.host else "http://" ++ req.host)
    ++ reverse (setup.lti_launch_url.getD "lti:launch")

/-- LTIToolConfigView.get_tool_config (views.py lines 194-204): a ToolConfig
built from the configured title and description, with launch_url and
secure_launch_url both set to the computed launch URL and no extension
parameters yet. -/
def get_tool_config (reverse : String → String) (setup : LTISetup) (req : ConfigRequest) : ToolConfig :=
  let lu := get_launch_url reverse setup req
  { title := setup.tool_title
    description := setup.tool_description
    launch_url := lu
    secure_launch_url := lu
    ext_params := [] }

/-- Set one parameter inside one extension block: replace the first binding
of the parameter name, or append a new binding. -/
def setParam (ps : List (String × String)) (p v : String) : List (String × String) :=
  match ps with
  | [] => [(p, v)]
  | (q, w) :: rest =>
      if q = p then (p, v) :: rest else (q, w) :: setParam rest p v

/-- Set one parameter under one vendor key: update the vendor key's block if
it exists, otherwise append a new block holding just this parameter. -/
def setExt (es : List (String × List (String × String))) (k p v : String) :
    List (String × List (String × String)) :=
  match es with
  | [] => [(k, [(p, v)])]
  | (j, ps) :: rest =>
      if j = k then (k, setParam ps p v) :: rest else (j, ps) :: setExt rest k p v

/-- Modelled from the spec: ims_lti_py ToolConfig.set_ext_param (external
collaborator) — store the value under the vendor-extension key and parameter
name on the document, as an entry of that vendor key's extension block. -/
def set_ext_param (tc : ToolConfig) (k p v : String) : ToolConfig :=
  { tc with ext_params := setExt tc.ext_params k p v }

/-- LTIToolConfigView.set_ext_params (views.py lines 171-192): for every
vendor key of the configured EXTENSION_PARAMETERS map and every parameter
under it, call set_ext_param with that key, name and value. -/
def set_ext_params (tc : ToolConfig) (m : List (String × List (String × String))) : ToolConfig :=
  m.foldl (fun acc kb => kb.2.foldl (fun acc2 pv => set_ext_param acc2 kb.1 pv.1 pv.2) acc) tc

/-- LTIToolConfigView.get (views.py lines 206-212): build the ToolConfig,
apply the configured extension parameters, and serve the document as XML
with status 200. -/
def configGet (reverse : String → String) (setup : LTISetup) (req : ConfigRequest) :
    ToolConfig × Nat × String :=
  (set_ext_params (get_tool_config reverse setup req) setup.extension_parameters, 200, "text/xml")

/-- Tags naming the view each URL pattern routes to (urls.py). -/
inductive ViewTag where
  | launchView
  | configView
  | logoutView
  | loggedOutView
deriving Repr, DecidableEq

/-- urlpatterns (urls.py lines 5-11): path, route name, view. -/
def urlpatterns : List (String × String × ViewTag) :=
  [("", "index", ViewTag.launchView),
   ("launch", "launch", ViewTag.launchView),
   ("config", "config", ViewTag.configView),
   ("logout", "logout", ViewTag.logoutView),
   ("logged-out", "logged-out", ViewTag.loggedOutView)]

/-- The authentication session established by the external authentication
collaborator: the identity of the logged-in user, when any. -/
structure AuthState where
  user : Option Nat
deriving Repr, DecidableEq

/-- Modelled from the spec: django.contrib.auth.logout (external framework
collaborator) — terminate the authenticated session. -/
def djangoLogout (a : AuthState) : AuthState :=
  { user := none }

/-- Result of the plain function views. -/
inductive ViewResult where
  | redirectName (route : String)
  | page (status : Nat) (body : String)
deriving Repr, DecidableEq

/-- logout_view (views.py lines 15-17): terminate the authenticated session
and redirect to the route named lti:logged-out; the entity store is not
touched. -/
def logout_view (a : AuthState) (s : Store) : AuthState × ViewResult × Store :=
  (djangoLogout a, ViewResult.redirectName "lti:logged-out", s)

/-- logged_out_view (views.py lines 19-20): the fixed confirmation page; the
entity store is not touched. -/
def logged_out_view (s : Store) : ViewResult × Store :=
  (ViewResult.page 200 "Logged out successfully.", s)

/-! ### Sample concrete inputs shared by the witnesses -/

/-- A sample static configuration. -/
def setupA : LTISetup :=
  { launch_redirect_url := "main"
    lti_launch_url := none
    tool_title := "T"
    tool_description := "D"
    extension_parameters := [] }

/-- The empty Entity Store. -/
def storeA : Store :=
  { courses := [], resources := [], courseUsers := [], nextCourseId := 1 }

/-- A valid launch request. -/
def reqA : LaunchRequest :=
  { oauth_consumer_key := some "ckey"
    resource_link_id := some "rlid"
    context_id := some "ctx"
    context_label := some "SHORT"
    context_title := some "Long name"
    custom_canvas_course_id := some "123"
    roles := some "Instructor,Learner"
    user := 7 }

/-- A repeat launch with the same key pair but different user and roles. -/
def reqB : LaunchRequest :=
  { reqA with roles := some "", user := 9 }

/-- A launch request missing oauth_consumer_key. -/
def reqNoKey : LaunchRequest :=
  { reqA with oauth_consumer_key := none }

/-! ### Helper lemmas -/

theorem sessionGet_sessionSet (sess : Session) (k : String) (v : Nat) :
    sessionGet (sessionSet sess k v) k = some v := by
  induction sess with
  | nil => simp [sessionSet, sessionGet, List.find?]
  | cons kv rest ih =>
    by_cases h : kv.1 = k
    · simp [sessionSet, h, sessionGet, List.find?]
    · simpa [sessionSet, h, sessionGet, List.find?] using ih

theorem set_ext_param_launch_url (tc : ToolConfig) (k p v : String) :
    (set_ext_param tc k p v).launch_url = tc.launch_url := rfl

theorem set_ext_param_secure_launch_url (tc : ToolConfig) (k p v : String) :
    (set_ext_param tc k p v).secure_launch_url = tc.secure_launch_url := rfl

theorem foldl_set_ext_param_launch_url (k : String) (ps : List (String × String)) (tc : ToolConfig) :
    (ps.foldl (fun acc2 pv => set_ext_param acc2 k pv.1 pv.2) tc).launch_url = tc.launch_url := by
  induction ps generalizing tc with
  | nil => rfl
  | cons pv rest ih => simpa using ih (set_ext_param tc k pv.1 pv.2)

theorem foldl_set_ext_param_secure_launch_url (k : String) (ps : List (String × String)) (tc : ToolConfig) :
    (ps.foldl (fun acc2 pv => set_ext_param acc2 k pv.1 pv.2) tc).secure_launch_url = tc.secure_launch_url := by
  induction ps generalizing tc with
  | nil => rfl
  | cons pv rest ih => simpa using ih (set_ext_param tc k pv.1 pv.2)

theorem set_ext_params_launch_url (m : List (String × List (String × String))) (tc : ToolConfig) :
    (set_ext_params tc m).launch_url = tc.launch_url := by
  induction m generalizing tc with
  | nil => rfl
  | cons kb rest ih =>
    show (set_ext_params (kb.2.foldl (fun acc2 pv => set_ext_param acc2 kb.1 pv.1 pv.2) tc) rest).launch_url = _
    rw [ih, foldl_set_ext_param_launch_url]

theorem set_ext_params_secure_launch_url (m : List (String × List (String × String))) (tc : ToolConfig) :
    (set_ext_params tc m).secure_launch_url = tc.secure_launch_url := by
  induction m generalizing tc with
  | nil => rfl
  | cons kb rest ih =>
    show (set_ext_params (kb.2.foldl (fun acc2 pv => set_ext_param acc2 kb.1 pv.1 pv.2) tc) rest).secure_launch_url = _
    rw [ih, foldl_set_ext_param_secure_launch_url]

theorem ext_params_foldl_set_ext_param (k : String) (ps : List (String × String)) (tc : ToolConfig) :
    (ps.foldl (fun acc2 pv => set_ext_param acc2 k pv.1 pv.2) tc).ext_params =
      ps.foldl (fun es pv => setExt es k pv.1 pv.2) tc.ext_params := by
  induction ps generalizing tc with
  | nil => rfl
  | cons pv rest ih => exact ih (set_ext_param tc k pv.1 pv.2)

theorem ext_params_set_ext_params (m : List (String × List (String × String))) (tc : ToolConfig) :
    (set_ext_params tc m).ext_params =
      m.foldl (fun es kb => kb.2.foldl (fun es2 pv => setExt es2 kb.1 pv.1 pv.2) es)
        tc.ext_params := by
  induction m generalizing tc with
  | nil => rfl
  | cons kb rest ih =>
    show (set_ext_params (kb.2.foldl (fun acc2 pv => set_ext_param acc2 kb.1 pv.1 pv.2) tc)
        rest).ext_params = _
    rw [ih, ext_params_foldl_set_ext_param]
    rfl

theorem setParam_fresh (ps : List (String × String)) (p v : String)
    (h : p ∉ ps.map Prod.fst) : setParam ps p v = ps ++ [(p, v)] := by
  induction ps with
  | nil => rfl
  | cons qw rest ih =>
    obtain ⟨q, w⟩ := qw
    simp only [List.map_cons, List.mem_cons] at h
    push_neg at h
    have hqp : ¬ q = p := fun e => h.1 e.symm
    simp only [setParam]
    rw [if_neg hqp, ih h.2]
    rfl

theorem foldl_setParam_fresh (qs : List (String × String)) (acc : List (String × String))
    (hdisj : ∀ q ∈ qs.map Prod.fst, q ∉ acc.map Prod.fst)
    (hnd : (qs.map Prod.fst).Nodup) :
    qs.foldl (fun a pv => setParam a pv.1 pv.2) acc = acc ++ qs := by
  induction qs generalizing acc with
  | nil => simp
  | cons pv rest ih =>
    obtain ⟨p, v⟩ := pv
    simp only [List.map_cons, List.nodup_cons] at hnd
    have hfresh : p ∉ acc.map Prod.fst := hdisj p (by simp)
    have hd2 : ∀ q ∈ rest.map Prod.fst, q ∉ (acc ++ [(p, v)]).map Prod.fst := by
      intro q hq
      simp only [List.map_append, List.mem_append]
      push_neg
      refine ⟨hdisj q (by simp [hq]), ?_⟩
      simp only [List.map_cons, List.map_nil, List.mem_singleton]
      exact fun e => hnd.1 (e ▸ hq)
    show rest.foldl (fun a pv => setParam a pv.1 pv.2) (setParam acc p v) = _
    rw [setParam_fresh acc p v hfresh, ih (acc ++ [(p, v)]) hd2 hnd.2]
    simp

theorem setExt_fresh (es : List (String × List (String × String))) (k p v : String)
    (h : k ∉ es.map Prod.fst) : setExt es k p v = es ++ [(k, [(p, v)])] := by
  induction es with
  | nil => rfl
  | cons jps rest ih =>
    obtain ⟨j, ps⟩ := jps
    simp only [List.map_cons, List.mem_cons] at h
    push_neg at h
    have hjk : ¬ j = k := fun e => h.1 e.symm
    simp only [setExt]
    rw [if_neg hjk, ih h.2]
    rfl

theorem setExt_last (es : List (String × List (String × String))) (k p v : String)
    (ps : List (String × String)) (h : k ∉ es.map Prod.fst) :
    setExt (es ++ [(k, ps)]) k p v = es ++ [(k, setParam ps p v)] := by
  induction es with
  | nil => simp [setExt]
  | cons jqs rest ih =>
    obtain ⟨j, qs⟩ := jqs
    simp only [List.map_cons, List.mem_cons] at h
    push_neg at h
    have hjk : ¬ j = k := fun e => h.1 e.symm
    simp only [List.cons_append, setExt]
    rw [if_neg hjk]
    exact congrArg (fun t => (j, qs) :: t) (ih h.2)

theorem foldl_setExt_block (k : String) (ps : List (String × String))
    (es : List (String × List (String × String))) (bs : List (String × String))
    (h : k ∉ es.map Prod.fst) :
    ps.foldl (fun a pv => setExt a k pv.1 pv.2) (es ++ [(k, bs)]) =
      es ++ [(k, ps.foldl (fun b pv => setParam b pv.1 pv.2) bs)] := by
  induction ps generalizing bs with
  | nil => rfl
  | cons pv rest ih =>
    show rest.foldl (fun a pv => setExt a k pv.1 pv.2) (setExt (es ++ [(k, bs)]) k pv.1 pv.2) = _
    rw [setExt_last es k pv.1 pv.2 bs h]
    exact ih (setParam bs pv.1 pv.2)

theorem foldl_setExt_full (k : String) (ps : List (String × String))
    (es : List (String × List (String × String)))
    (h : k ∉ es.map Prod.fst) (hne : ps ≠ []) (hnd : (ps.map Prod.fst).Nodup) :
    ps.foldl (fun a pv => setExt a k pv.1 pv.2) es = es ++ [(k, ps)] := by
  match ps, hne with
  | (p, v) :: rest, _ =>
    simp only [List.map_cons, List.nodup_cons] at hnd
    have hd : ∀ q ∈ rest.map Prod.fst, q ∉ ([(p, v)] : List (String × String)).map Prod.fst := by
      intro q hq
      simp only [List.map_cons, List.map_nil, List.mem_singleton]
      exact fun e => hnd.1 (e ▸ hq)
    show rest.foldl (fun a pv => setExt a k pv.1 pv.2) (setExt es k p v) = _
    rw [setExt_fresh es k p v h, foldl_setExt_block k rest es [(p, v)] h,
      foldl_setParam_fresh rest [(p, v)] hd hnd.2]
    rfl

theorem foldl_blocks_filter (m : List (String × List (String × String)))
    (es : List (String × List (String × String)))
    (hdisj : ∀ k ∈ m.map Prod.fst, k ∉ es.map Prod.fst)
    (hnd : (m.map Prod.fst).Nodup)
    (hsub : ∀ kb ∈ m, (kb.2.map Prod.fst).Nodup) :
    m.foldl (fun es2 kb => kb.2.foldl (fun a pv => setExt a kb.1 pv.1 pv.2) es2) es =
      es ++ m.filter (fun kb => !kb.2.isEmpty) := by
  induction m generalizing es with
  | nil => simp
  | cons kb rest ih =>
    obtain ⟨k, ps⟩ := kb
    simp only [List.map_cons, List.nodup_cons] at hnd
    have hk : k ∉ es.map Prod.fst := hdisj k (by simp)
    have hps := hsub (k, ps) (by simp)
    cases ps with
    | nil =>
      show rest.foldl (fun es2 kb => kb.2.foldl (fun a pv => setExt a kb.1 pv.1 pv.2) es2) es = _
      rw [ih es (fun k2 hk2 => hdisj k2 (by simp [hk2])) hnd.2
        (fun kb hkb => hsub kb (by simp [hkb]))]
      simp [List.filter_cons]
    | cons pv ps2 =>
      have hd2 : ∀ k2 ∈ rest.map Prod.fst, k2 ∉ (es ++ [(k, pv :: ps2)]).map Prod.fst := by
        intro k2 hk2
        simp only [List.map_append, List.mem_append]
        push_neg
        refine ⟨hdisj k2 (by simp [hk2]), ?_⟩
        simp only [List.map_cons, List.map_nil, List.mem_singleton]
        exact fun e => hnd.1 (e ▸ hk2)
      show rest.foldl (fun es2 kb => kb.2.foldl (fun a pv => setExt a kb.1 pv.1 pv.2) es2)
          ((pv :: ps2).foldl (fun a pv => setExt a k pv.1 pv.2) es) = _
      rw [foldl_setExt_full k (pv :: ps2) es hk (by simp) hps,
        ih (es ++ [(k, pv :: ps2)]) hd2 hnd.2 (fun kb hkb => hsub kb (by simp [hkb]))]
      simp [List.filter_cons]

/-! ### Claim theorems -/

/-- C5: a GET to the launch endpoint returns status 200 with the fixed
message "Invalid LTI launch request.", raises no error, and leaves the Entity
Store exactly as it was, whatever its prior state. -/
theorem lti_C5 : ∀ s : Store,
    launchGet s =
      ({ status := 200, content_type := "text/html", body := "Invalid LTI launch request." }, s) :=
  fun _ => rfl

/-- C4: as written, the default processLaunch stage never extracts the launch
parameters, never reconciles, and never sets the resolved context: for every
configuration, request, session and store state, the POST pipeline fails with
the NameError on the unbound name request, leaving session and store
untouched.  This contradicts the documented intent of the stage (code bug:
hook_process_post drops the request argument and _process_post lacks the
request parameter its body reads). -/
theorem lti_C4 : ∀ (setup : LTISetup) (req : LaunchRequest) (sess : Session) (s : Store),
    postWritten setup req sess s =
      (LaunchOutcome.failure (LaunchError.nameError "request"), sess, s) :=
  fun _ _ _ _ => rfl

/-- C6: after the default afterProcessing stage, when a resolved context
exists the session holds the resolved course identifier under the fixed key
"course_id"; when no resolved context exists the session is left exactly as
it was. -/
theorem lti_C6 : ∀ (r : LTIResource) (sess : Session),
    sessionGet (hook_after_post (some r) sess) "course_id" = some r.course_id
      ∧ hook_after_post none sess = sess :=
  fun r sess => ⟨sessionGet_sessionSet sess "course_id" r.course_id, rfl⟩

/-- C7: the default computeRedirect stage fails with NoContext whenever the
handler has no resolved context, and with a resolved context it returns a
redirect to the configured post-launch route parameterized by the resolved
course identifier. -/
theorem lti_C7 : ∀ (setup : LTISetup) (r : LTIResource),
    hook_get_redirect setup none = Except.error LaunchError.noContext
      ∧ hook_get_redirect setup (some r) =
          Except.ok { route := setup.launch_redirect_url, course_id := r.course_id } :=
  fun _ _ => ⟨rfl, rfl⟩

/-- C8: for every configuration-fetch request, the launch URL of the produced
document is the scheme (https exactly when the transport is secure, http
otherwise) followed by the host and the configured launch path, and its
secure_launch_url field is identical to its launch_url field. -/
theorem lti_C8 : ∀ (reverse : String → String) (setup : LTISetup) (req : ConfigRequest),
    (configGet reverse setup req).1.launch_url =
        (if req.is_secure then "https://" ++ req.host else "http://" ++ req.host)
          ++ reverse (setup.lti_launch_url.getD "lti:launch")
      ∧ (configGet reverse setup req).1.secure_launch_url =
          (configGet reverse setup req).1.launch_url := by
  intro reverse setup req
  constructor
  · show (set_ext_params (get_tool_config reverse setup req) setup.extension_parameters).launch_url = _
    rw [set_ext_params_launch_url]
    rfl
  · show (set_ext_params (get_tool_config reverse setup req) setup.extension_parameters).secure_launch_url =
        (set_ext_params (get_tool_config reverse setup req) setup.extension_parameters).launch_url
    rw [set_ext_params_secure_launch_url, set_ext_params_launch_url]
    rfl

/-- C3 (code bug): a POST launch in which oauth_consumer_key or
resource_link_id is absent does fail with no mutation, but with the NameError
on the unbound name request (raised at the first line of the launch
dictionary, before any key is even read), never with the MalformedLaunch
error the claim and the spec describe: the written pipeline returns the
NameError failure with session and store unchanged, and its outcome is not
the MalformedLaunch failure. -/
theorem lti_C3 (setup : LTISetup) (req : LaunchRequest) (sess : Session) (s : Store)
    (h : req.oauth_consumer_key = none ∨ req.resource_link_id = none) :
    postWritten setup req sess s =
        (LaunchOutcome.failure (LaunchError.nameError "request"), sess, s)
      ∧ ¬ (postWritten setup req sess s).1 =
          LaunchOutcome.failure LaunchError.malformedLaunch :=
  ⟨rfl, by simp [postWritten, processPostWritten]⟩

/-- Witness for C3: a concrete POST with no oauth_consumer_key fails with the
NameError, not MalformedLaunch, leaving the empty store and the empty session
unchanged. -/
theorem lti_C3_witness :
    postWritten setupA reqNoKey [] storeA =
        (LaunchOutcome.failure (LaunchError.nameError "request"), [], storeA)
      ∧ ¬ (postWritten setupA reqNoKey [] storeA).1 =
          LaunchOutcome.failure LaunchError.malformedLaunch :=
  lti_C3 setupA reqNoKey [] storeA (Or.inl rfl)

/-- C1 (code bug): the claimed lookup-or-create never happens.  For every
valid launch with a previously unseen (consumer_key, resource_link_id) pair,
the written POST pipeline fails with the NameError on the unbound name
request before reading any launch parameter, and returns the Entity Store
exactly as it was: no Resource and no Course is ever created, so no repeat
launch can ever find an existing pair either. -/
theorem lti_C1 (setup : LTISetup) (req : LaunchRequest) (sess : Session) (s : Store)
    (ck rl : String)
    (hck : req.oauth_consumer_key = some ck) (hrl : req.resource_link_id = some rl)
    (hnew : hasCourse s (some ck) (some rl) = false) :
    postWritten setup req sess s =
        (LaunchOutcome.failure (LaunchError.nameError "request"), sess, s)
      ∧ (postWritten setup req sess s).2.2.resources = s.resources
      ∧ (postWritten setup req sess s).2.2.courses = s.courses :=
  ⟨rfl, rfl, rfl⟩

/-- Witness for C1: a concrete valid launch with a pair unseen in the empty
store fails with the NameError and creates no Resource and no Course. -/
theorem lti_C1_witness :
    postWritten setupA reqA [] storeA =
        (LaunchOutcome.failure (LaunchError.nameError "request"), [], storeA)
      ∧ (postWritten setupA reqA [] storeA).2.2.resources = storeA.resources
      ∧ (postWritten setupA reqA [] storeA).2.2.courses = storeA.courses :=
  lti_C1 setupA reqA [] storeA "ckey" "rlid" rfl rfl rfl

/-- C2 (code bug): the membership step of views.py lines 139-144 is
unreachable — the NameError on the unbound name request is raised first on
every launch — so no launch ever creates or updates a CourseMembership.  In
particular a launch whose roles field is the empty string fails with the
NameError instead of yielding a membership with an empty role set: the
written pipeline returns the failure with the store, and hence its
CourseMembership records, exactly as they were. -/
theorem lti_C2 (setup : LTISetup) (req : LaunchRequest) (sess : Session) (s : Store)
    (hroles : req.roles = some "") :
    postWritten setup req sess s =
        (LaunchOutcome.failure (LaunchError.nameError "request"), sess, s)
      ∧ (postWritten setup req sess s).2.2.courseUsers = s.courseUsers :=
  ⟨rfl, rfl⟩

/-- Witness for C2: a concrete launch carrying the empty roles string fails
with the NameError and leaves the membership records of the empty store
untouched — no membership with an empty role set comes to exist. -/
theorem lti_C2_witness :
    postWritten setupA reqB [] storeA =
        (LaunchOutcome.failure (LaunchError.nameError "request"), [], storeA)
      ∧ (postWritten setupA reqB [] storeA).2.2.courseUsers = storeA.courseUsers :=
  lti_C2 setupA reqB [] storeA rfl

/-- Counterexample to C9 as stated: a configured map whose single vendor key
carries an empty parameter sub-map emits no extension block at all for that
key — not exactly one — because the inner loop of set_ext_params never runs,
so set_ext_param is never called for that vendor key. -/
theorem lti_C9_counterexample :
    ¬ ((set_ext_params
          (get_tool_config (fun _ => "/launch") setupA { host := "example.edu", is_secure := true })
          [("canvas.instructure.com", [])]).ext_params.countP
        (fun b => decide (b.1 = "canvas.instructure.com")) = 1) := by
  decide

/-- C9 (amended): for every configured vendor-extension parameter map (as a
Python dict: distinct vendor keys, distinct parameter names per key), the
generator emits exactly one extension block per vendor key whose sub-map is
nonempty, each block carrying exactly the nested parameter entries of that
key's sub-map, unmodified, and no block at all for a vendor key whose
sub-map is empty: the emitted blocks are exactly the nonempty-sub-map
entries of the map, in order. -/
theorem lti_C9 (tc : ToolConfig) (m : List (String × List (String × String)))
    (h0 : tc.ext_params = [])
    (hk : (m.map Prod.fst).Nodup)
    (hsub : ∀ kb ∈ m, (kb.2.map Prod.fst).Nodup) :
    (set_ext_params tc m).ext_params = m.filter (fun kb => !kb.2.isEmpty) := by
  rw [ext_params_set_ext_params, h0]
  simpa using foldl_blocks_filter m [] (by simp) hk hsub

/-- Witness for C9: the map with vendor key canvas.instructure.com carrying
the single parameter privacy_level = public yields exactly one extension
block for that key with exactly that parameter, and the map carrying that
vendor key with an empty sub-map yields no block at all. -/
theorem lti_C9_witness :
    (set_ext_params
          (get_tool_config (fun _ => "/launch") setupA { host := "example.edu", is_secure := true })
          [("canvas.instructure.com", [("privacy_level", "public")])]).ext_params =
        [("canvas.instructure.com", [("privacy_level", "public")])]
      ∧ (set_ext_params
          (get_tool_config (fun _ => "/launch") setupA { host := "example.edu", is_secure := true })
          [("canvas.instructure.com", [])]).ext_params = [] :=
  ⟨(lti_C9
      (get_tool_config (fun _ => "/launch") setupA { host := "example.edu", is_secure := true })
      [("canvas.instructure.com", [("privacy_level", "public")])]
      rfl (by decide) (by decide)).trans (by decide),
    (lti_C9
      (get_tool_config (fun _ => "/launch") setupA { host := "example.edu", is_secure := true })
      [("canvas.instructure.com", [])]
      rfl (by decide) (by decide)).trans (by decide)⟩

/-- C10: the module exposes logout endpoints: the logout route maps to
logout_view, which terminates the authenticated session and redirects to the
fixed logged-out route, and the logged-out route maps to logged_out_view,
which returns the fixed body "Logged out successfully."; neither view reads
or mutates the Entity Store (each returns it unchanged, independent of its
contents). -/
theorem lti_C10 :
    (∀ (a : AuthState) (s : Store),
        logout_view a s = ({ user := none }, ViewResult.redirectName "lti:logged-out", s))
      ∧ (∀ s : Store, logged_out_view s = (ViewResult.page 200 "Logged out successfully.", s))
      ∧ urlpatterns.find? (fun p => decide (p.1 = "logout")) =
          some ("logout", "logout", ViewTag.logoutView)
      ∧ urlpatterns.find? (fun p => decide (p.1 = "logged-out")) =
          some ("logged-out", "logged-out", ViewTag.loggedOutView) :=
  ⟨fun _ _ => rfl, fun _ => rfl, by decide, by decide⟩

end LtiApp
